import Mathlib

/-!
Verification of the package-installation engine of `python_packages.py`
(Termux-All-Tools).  The Lean definitions below are a shallow embedding of
the source: `install_package`, `parallel_install` and `uninstall_packages`
together with the version-satisfaction check on line 119

    if current_version and version.parse(current_version) >= version.parse(spec.lstrip('>=')):

The external subprocess world is abstracted by two capabilities, exactly as
the script consumes them: a version oracle (`pip show`, returning the
installed version string or `None`) and an executor returning, per attempt,
either success, a nonzero exit with captured stderr
(`subprocess.CalledProcessError`), or `subprocess.TimeoutExpired`.
-/

/-- `NETWORK_RETRIES = 2` (line 38 of the source). -/
def NETWORK_RETRIES : Nat := 2

/-- `NETWORK_TIMEOUT = 30` (line 39 of the source). -/
def NETWORK_TIMEOUT : Nat := 30

/-- `MAX_WORKERS = 3` (line 37 of the source). -/
def MAX_WORKERS : Nat := 3

/-- Split a character list at every occurrence of `sep`, keeping empty
segments, exactly as Python's `s.split(sep)` does for a one-character
separator (`"".split(sep) == [""]`). -/
def splitChar (sep : Char) : List Char → List (List Char)
  | [] => [[]]
  | c :: cs =>
    if c = sep then [] :: splitChar sep cs
    else
      match splitChar sep cs with
      | [] => [[c]]
      | s :: rest => (c :: s) :: rest

/-- Python's `s.split('.')`. -/
def splitDots : List Char → List (List Char) :=
  splitChar '.'

/-- ASCII whitespace, as stripped by Python's `str.strip()` (the stderr texts
this development evaluates contain only ASCII). -/
def isPyWhitespace (c : Char) : Bool :=
  c = ' ' || c = '\t' || c = '\n' || c = '\r' || c = '\x0b' || c = '\x0c'

/-- Python's `s.strip()`: drop leading and trailing whitespace. -/
def stripPy (l : List Char) : List Char :=
  ((l.dropWhile isPyWhitespace).reverse.dropWhile isPyWhitespace).reverse

/-- A dot-separated segment is numeric when it is nonempty and all digits. -/
def isNumericSeg (t : List Char) : Bool :=
  !t.isEmpty && t.all Char.isDigit

/-- Numeric value of a digit string (decimal). -/
def digitsToNat (t : List Char) : Nat :=
  t.foldl (fun n c => n * 10 + (c.toNat - '0'.toNat)) 0

/-- Models `packaging.version.parse` (packaging ≥ 22, PEP 440: `parse = Version`,
which raises `InvalidVersion` on any string the PEP 440 grammar rejects),
restricted to the plain release versions this program's configuration uses:
a string parses iff every dot-separated segment is a nonempty digit string,
and the result is the list of numeric release segments.  Full PEP 440
additionally accepts epoch/pre/post/dev/local forms; none of those occurs in
this program's package constraints or in any theorem below, and every string
rejected here that a theorem below uses (the empty string, and strings with a
letter segment such as `"abc"` or `"1.2.x"`) is rejected by PEP 440 as well. -/
def parseVersion (s : String) : Option (List Nat) :=
  if (splitDots s.data).all isNumericSeg then some ((splitDots s.data).map digitsToNat)
  else none

/-- Three-way comparison on `Nat`, written out so its equations unfold. -/
def natCmp (a b : Nat) : Ordering :=
  if a < b then .lt else if a = b then .eq else .gt

/-- `o ≠ lt`, i.e. the boolean value of Python's `>=` on a total order. -/
def ordIsGE : Ordering → Bool
  | .lt => false
  | _ => true

/-- Every segment is zero (how a missing suffix compares against `0`-padding). -/
def allZero : List Nat → Bool
  | [] => true
  | y :: ys => y == 0 && allZero ys

/-- PEP 440 release-tuple comparison: segments left to right, a missing
segment counting as zero (so `1.2` equals `1.2.0`).  This is exactly how
`packaging.version.Version` compares two plain release versions. -/
def cmpRelease : List Nat → List Nat → Ordering
  | [], ys => if allZero ys then .eq else .lt
  | x :: xs, [] => if allZero (x :: xs) then .eq else .gt
  | x :: xs, y :: ys => (natCmp x y).then (cmpRelease xs ys)

/-- Python's `spec.lstrip('>=')` (line 119): remove every leading character
belonging to the set `{'>', '='}` — a character-set strip, not the removal of
one literal `">="` prefix. -/
def lstripGtEq (s : String) : String :=
  ⟨s.data.dropWhile (fun c => c = '>' || c = '=')⟩

/-- The satisfaction test on lines 119-121 of `install_package`:
`current_version and version.parse(current_version) >= version.parse(spec.lstrip('>='))`.
`None` and the empty string are falsy, so an absent or empty installed
version short-circuits to "not satisfied" without parsing anything; otherwise
both sides are parsed (an unparsable string raises `InvalidVersion`, modelled
as `Except.error`) and compared with `>=`. -/
def satisfiedCheck (current_version : Option String) (spec : String) : Except String Bool :=
  match current_version with
  | none => .ok false
  | some cv =>
    if cv = "" then .ok false
    else
      match parseVersion cv with
      | none => .error "InvalidVersion"
      | some pv =>
        match parseVersion (lstripGtEq spec) with
        | none => .error "InvalidVersion"
        | some ps => .ok (ordIsGE (cmpRelease pv ps))

/-- `e.stderr.strip().split('\n')[-1]` (line 144): the last line of the
stripped stderr text. -/
def lastErrLine (s : String) : String :=
  ⟨(splitChar '\n' (stripPy s.data)).getLastD []⟩

/-- Outcome of one executor invocation (`subprocess.run` with `check=True`
and a timeout, lines 132-139): normal exit, nonzero exit carrying stderr
(`CalledProcessError`), or `TimeoutExpired`. -/
inductive ExecResult where
  | success
  | calledProcessError (stderr : String)
  | timeoutExpired
  deriving DecidableEq, Repr

deriving instance DecidableEq for Except

/-- What one call of `install_package` does: its returned value (`Except` for
a propagated exception, `Option` because falling off the retry loop returns
Python's `None`), the number of executor calls made, and the list of
`time.sleep` durations in the order they occur. -/
structure InstallTrace where
  result : Except String (Option (String × Bool × String))
  calls : Nat
  sleeps : List Nat
  deriving DecidableEq, Repr

/-- The retry loop of `install_package` (lines 123-156):
`for attempt in range(NETWORK_RETRIES + 1)`.  On success return
`(package, True, "Success")`; on `CalledProcessError` return the last stderr
line if this was the last attempt, else sleep `5 * (attempt + 1)` and retry;
on `TimeoutExpired` return `"Timeout"` if this was the last attempt, else
sleep `10 * (attempt + 1)` and retry.  The fuel argument counts the loop
iterations still available; exhausting it is Python's implicit `return None`. -/
def installLoop (exec : Nat → ExecResult) (package : String) :
    Nat → Nat → Option (String × Bool × String) × Nat × List Nat
  | _, 0 => (none, 0, [])
  | attempt, fuel + 1 =>
    match exec attempt with
    | .success => (some (package, true, "Success"), 1, [])
    | .calledProcessError stderr =>
      if attempt = NETWORK_RETRIES then (some (package, false, lastErrLine stderr), 1, [])
      else
        let r := installLoop exec package (attempt + 1) fuel
        (r.1, r.2.1 + 1, 5 * (attempt + 1) :: r.2.2)
    | .timeoutExpired =>
      if attempt = NETWORK_RETRIES then (some (package, false, "Timeout"), 1, [])
      else
        let r := installLoop exec package (attempt + 1) fuel
        (r.1, r.2.1 + 1, 10 * (attempt + 1) :: r.2.2)

/-- `install_package(package, spec)` (lines 115-156), with the version oracle
(`get_installed_version`) and the executor as explicit capabilities.  If the
satisfaction check raises, the exception propagates with no executor call; if
it is satisfied, return `(package, True, "Already installed")` with no
executor call; otherwise run the retry loop. -/
def install_package (oracle : String → Option String) (exec : Nat → ExecResult)
    (package spec : String) : InstallTrace :=
  match satisfiedCheck (oracle package) spec with
  | .error e => ⟨.error e, 0, []⟩
  | .ok true => ⟨.ok (some (package, true, "Already installed")), 0, []⟩
  | .ok false =>
    let r := installLoop exec package 0 (NETWORK_RETRIES + 1)
    ⟨.ok r.1, r.2.1, r.2.2⟩

/-- The values delivered by the futures of `parallel_install` (line 163), one
per submitted package, in submission order: the `executor` capability is
per-package (`exec name attempt`). -/
def futureResults (oracle : String → Option String) (exec : String → Nat → ExecResult)
    (packages : List (String × String)) :
    List (Except String (Option (String × Bool × String))) :=
  packages.map (fun ps => (install_package oracle (exec ps.1) ps.1 ps.2).result)

/-- The collection loop of `parallel_install` (lines 170-178):
`for future in futures: package, success, message = future.result()` — the
futures are read in submission order; a future whose call raised re-raises
here (`Except.error`), a `None` result fails the tuple destructuring
(`TypeError`), and otherwise the package name is appended to `failed` when
`success` is false. -/
def collectFailed : List (Except String (Option (String × Bool × String))) →
    Except String (List String)
  | [] => .ok []
  | r :: rs =>
    match r with
    | .error e => .error e
    | .ok none => .error "TypeError"
    | .ok (some (p, success, _)) =>
      match collectFailed rs with
      | .error e => .error e
      | .ok failed => .ok (if success then failed else p :: failed)

/-- `parallel_install(packages)` (lines 158-187): submit one job per package,
read every future in submission order, and return the list of failed package
names.  Progress printing and the throttled notification (lines 175-185) are
output-only side effects with no influence on the returned value. -/
def parallel_install (oracle : String → Option String) (exec : String → Nat → ExecResult)
    (packages : List (String × String)) : Except String (List String) :=
  collectFailed (futureResults oracle exec packages)

/-- `parallel_install` with the completion order of the worker threads made
explicit: `completion` lists the job indices in the order the jobs finish.
The collection loop iterates `futures` in submission order and each future's
value is a pure function of its own package, so the batch result is the same
for every completion order — which is why the parameter does not occur on the
right-hand side. -/
def parallel_install_sched (completion : List Nat) (oracle : String → Option String)
    (exec : String → Nat → ExecResult) (packages : List (String × String)) :
    Except String (List String) :=
  parallel_install oracle exec packages

/-- Modelled from the spec: the failed packages listed in the order the
concurrent jobs complete (`completion` lists job indices in completion
order).  The spec asserts `failed` is ordered this way; the source is the
authority for what `parallel_install` actually returns. -/
def failedInCompletionOrder (completion : List Nat) (oracle : String → Option String)
    (exec : String → Nat → ExecResult) (packages : List (String × String)) : List String :=
  completion.filterMap (fun i =>
    match packages[i]? with
    | none => none
    | some ps =>
      match (install_package oracle (exec ps.1) ps.1 ps.2).result with
      | .ok (some (p, false, _)) => some p
      | _ => none)

/-- Whether a package's job ends in failure (used to state what
`parallel_install` returns). -/
def outcomeFailed (oracle : String → Option String) (exec : String → Nat → ExecResult)
    (ps : String × String) : Bool :=
  match (install_package oracle (exec ps.1) ps.1 ps.2).result with
  | .ok (some (_, false, _)) => true
  | _ => false

/-- The failed package names in request (= submission) order: the packages
whose job ends in failure, filtered out of the submitted list in place. -/
def failedNames (oracle : String → Option String) (exec : String → Nat → ExecResult)
    (packages : List (String × String)) : List String :=
  (packages.filter (outcomeFailed oracle exec)).map Prod.fst

/-- The sleep duration the retry loop uses after a failed attempt numbered
`k` (1-based): `5 * k` after a nonzero exit (line 150), `10 * k` after a
timeout (line 156). -/
def retryDelay : ExecResult → Nat → Nat
  | .calledProcessError _, k => 5 * k
  | .timeoutExpired, k => 10 * k
  | .success, _ => 0

/-- One `subprocess.run` invocation: its argument vector and the `timeout`
keyword argument it passes (`none` when the call site passes no timeout). -/
structure SubprocessCall where
  argv : List String
  timeout : Option Nat
  deriving DecidableEq, Repr

/-- The subprocess invocation of `get_installed_version` (lines 102-107):
`subprocess.run(["python3", "-m", "pip", "show", package], ...)` — no
`timeout` keyword is passed. -/
def get_installed_version_call (package : String) : SubprocessCall :=
  ⟨["python3", "-m", "pip", "show", package], none⟩

/-- The subprocess invocation of the retry loop (lines 126-139):
`pip install --user <package><spec> --timeout NETWORK_TIMEOUT` run with
`timeout=NETWORK_TIMEOUT*2`. -/
def install_call (package spec : String) : SubprocessCall :=
  ⟨["python3", "-m", "pip", "install", "--user",
      if spec = "" then package else package ++ spec,
      "--timeout", toString NETWORK_TIMEOUT],
    some (NETWORK_TIMEOUT * 2)⟩

/-- The subprocess invocation of `uninstall_packages` (lines 194-200):
`subprocess.run(["python3", "-m", "pip", "uninstall", "-y", package], ...)` —
no `timeout` keyword is passed. -/
def uninstall_call (package : String) : SubprocessCall :=
  ⟨["python3", "-m", "pip", "uninstall", "-y", package], none⟩

/-- Lexicographic comparison of character lists by code point, as Python
compares strings. -/
def lexCmp : List Char → List Char → Ordering
  | [], [] => .eq
  | [], _ :: _ => .lt
  | _ :: _, [] => .gt
  | a :: as, b :: bs => (natCmp a.toNat b.toNat).then (lexCmp as bs)

/-- Modelled from the spec's words (§4.2): compare one pair of dot-separated
segments — numerically when both are numeric, lexicographically as a
fallback otherwise. -/
def segCmp (x y : List Char) : Ordering :=
  if isNumericSeg x && isNumericSeg y then natCmp (digitsToNat x) (digitsToNat y)
  else lexCmp x y

/-- Pad a segment list on the right with `"0"` segments up to length `n`. -/
def padSegs (n : Nat) (l : List (List Char)) : List (List Char) :=
  l ++ List.replicate (n - l.length) ['0']

/-- First non-`eq` entry of a list of orderings (`eq` if none). -/
def ordLexList (l : List Ordering) : Ordering :=
  l.foldr Ordering.then .eq

/-- Modelled from the spec's words (§4.2 / claim C8): version comparison by
dotted segments, left to right, the shorter sequence padded with zeros,
numeric segments compared numerically and non-numeric segments compared
lexicographically as a fallback. -/
def specVersionCmp (a b : String) : Ordering :=
  ordLexList (List.zipWith segCmp
    (padSegs (max (splitDots a.data).length (splitDots b.data).length) (splitDots a.data))
    (padSegs (max (splitDots a.data).length (splitDots b.data).length) (splitDots b.data)))

/-! ## Helper lemmas -/

/-- `dropWhile` skips over a block of characters all satisfying the predicate. -/
theorem dropWhile_append_all {p : Char → Bool} (l m : List Char)
    (h : ∀ c ∈ l, p c = true) : (l ++ m).dropWhile p = m.dropWhile p := by
  induction l with
  | nil => rfl
  | cons a l ih =>
    simp only [List.cons_append, List.dropWhile_cons, h a (by simp)]
    exact ih (fun c hc => h c (by simp [hc]))

/-- A prefix made of `'>'` and `'='` characters is absorbed by the strip. -/
theorem lstripGtEq_absorb (pre s : String)
    (h : ∀ c ∈ pre.data, (c = '>' || c = '=') = true) :
    lstripGtEq (pre ++ s) = lstripGtEq s := by
  unfold lstripGtEq
  rw [String.data_append, dropWhile_append_all _ _ h]

/-- `satisfiedCheck` reads its constraint only through `lstripGtEq`. -/
theorem satisfiedCheck_strip_congr (cv : Option String) {s t : String}
    (h : lstripGtEq s = lstripGtEq t) : satisfiedCheck cv s = satisfiedCheck cv t := by
  unfold satisfiedCheck
  rw [h]

/-- `splitChar` never returns the empty list (Python's `split` always yields
at least one piece). -/
theorem splitChar_ne_nil (sep : Char) (l : List Char) : splitChar sep l ≠ [] := by
  cases l with
  | nil => simp [splitChar]
  | cons c cs =>
    by_cases h : c = sep
    · simp [splitChar, h]
    · cases hs : splitChar sep cs <;> simp [splitChar, h, hs]

/-- `splitDots` never returns the empty list. -/
theorem splitDots_ne_nil (l : List Char) : splitDots l ≠ [] :=
  splitChar_ne_nil '.' l

/-- The empty string does not parse (its single segment is empty). -/
theorem parseVersion_empty : parseVersion "" = none := rfl

/-- A string that parses is nonempty. -/
theorem parse_some_ne_empty {v : String} {l : List Nat}
    (h : parseVersion v = some l) : v ≠ "" := by
  intro e
  rw [e, parseVersion_empty] at h
  cases h

/-- A string that parses starts with a digit. -/
theorem parse_head_digit {v : String} {l : List Nat}
    (h : parseVersion v = some l) : ∃ c cs, v.data = c :: cs ∧ c.isDigit = true := by
  unfold parseVersion at h
  split at h
  case isFalse => cases h
  case isTrue hall =>
    cases hv : v.data with
    | nil => rw [hv] at hall; simp [splitDots, splitChar, isNumericSeg] at hall
    | cons c cs =>
      rw [hv] at hall
      by_cases hdot : c = '.'
      · simp [splitDots, splitChar, hdot, isNumericSeg] at hall
      · refine ⟨c, cs, rfl, ?_⟩
        cases hs : splitDots cs with
        | nil => exact absurd hs (splitDots_ne_nil cs)
        | cons s rest =>
          rw [show splitDots (c :: cs) = (c :: s) :: rest by
            simp only [splitDots] at hs ⊢
            simp [splitChar, hdot, hs]] at hall
          simp [isNumericSeg] at hall
          exact hall.1.1

/-- Stripping `">="` from `">=" ++ v` gives back `v` whenever `v` parses
(a parsing version starts with a digit, which the strip does not touch). -/
theorem lstripGtEq_ge_self {v : String} {l : List Nat}
    (h : parseVersion v = some l) : lstripGtEq (">=" ++ v) = v := by
  obtain ⟨c, cs, hd, hdig⟩ := parse_head_digit h
  have h1 : c ≠ '>' := fun e => by subst e; exact absurd hdig (by decide)
  have h2 : c ≠ '=' := fun e => by subst e; exact absurd hdig (by decide)
  unfold lstripGtEq
  rw [String.data_append]
  rw [show (">=" : String).data = ['>', '='] from rfl]
  rw [hd]
  simp [List.dropWhile_cons, h1, h2]
  exact congrArg String.mk hd.symm

/-- A version compares equal to itself. -/
theorem cmpRelease_self (l : List Nat) : cmpRelease l l = .eq := by
  induction l with
  | nil => rfl
  | cons x xs ih => simp [cmpRelease, natCmp, ih, Ordering.then]

/-! ## Claim C10 -/

/-- Claim C10 (confirmed): the constraint is consumed by `lstrip('>=')`, a
character-set strip of all leading `'>'`/`'='` characters, and the comparison
operator is always `>=` — so `"==" ++ s`, `">==" ++ s` and `"===" ++ s` are
all evaluated exactly like `">=" ++ s`, for every installed version and every
remainder `s`. -/
theorem C10_charset_strip_always_ge (cv : Option String) (s : String) :
    satisfiedCheck cv ("==" ++ s) = satisfiedCheck cv (">=" ++ s) ∧
    satisfiedCheck cv (">==" ++ s) = satisfiedCheck cv (">=" ++ s) ∧
    satisfiedCheck cv ("===" ++ s) = satisfiedCheck cv (">=" ++ s) := by
  refine ⟨?_, ?_, ?_⟩ <;>
    exact satisfiedCheck_strip_congr cv
      ((lstripGtEq_absorb _ _ (by decide)).trans (lstripGtEq_absorb _ _ (by decide)).symm)

/-! ## Claim C9 -/

/-- Claim C9 counterexample: the claim says every blocking engine call
carries an explicit timeout, but the `pip show` call of
`get_installed_version` and the `pip uninstall` call of `uninstall_packages`
pass no `timeout` argument at all. -/
theorem C9_counterexample :
    (get_installed_version_call "requests").timeout = none ∧
    (uninstall_call "requests").timeout = none :=
  ⟨rfl, rfl⟩

/-- Claim C9 (corrected): of the three blocking engine calls, only the
install invocation carries an explicit timeout (`NETWORK_TIMEOUT * 2 = 60`
seconds); the installed-version query and the uninstall invocation pass
none. -/
theorem C9_only_install_call_has_timeout (package spec : String) :
    (install_call package spec).timeout = some (NETWORK_TIMEOUT * 2) ∧
    (install_call package spec).timeout = some 60 ∧
    (get_installed_version_call package).timeout = none ∧
    (uninstall_call package).timeout = none :=
  ⟨rfl, rfl, rfl, rfl⟩

/-! ## Claim C6 -/

/-- Claim C6 (confirmed): when the installed version already satisfies the
constraint, `install_package` records `(package, True, "Already installed")`
and makes zero executor calls (and sleeps never). -/
theorem C6_already_satisfied_zero_calls
    (oracle : String → Option String) (exec : Nat → ExecResult) (pkg spec : String)
    (h : satisfiedCheck (oracle pkg) spec = .ok true) :
    install_package oracle exec pkg spec =
      ⟨.ok (some (pkg, true, "Already installed")), 0, []⟩ := by
  simp [install_package, h]

/-- Concrete instance of C6: `requests` installed at `2.28.0` against
`">=2.28.0"` is already satisfied and triggers no executor call. -/
theorem C6_witness :
    satisfiedCheck ((fun _ => some "2.28.0") "requests") ">=2.28.0" = .ok true ∧
    install_package (fun _ => some "2.28.0") (fun _ => ExecResult.success) "requests" ">=2.28.0" =
      ⟨.ok (some ("requests", true, "Already installed")), 0, []⟩ :=
  ⟨rfl, C6_already_satisfied_zero_calls _ _ _ _ rfl⟩

/-! ## Claim C4 -/

/-- Claim C4 counterexample: the claim says an invalid installed-version
string makes the check evaluate to "not satisfied" so the package is
dispatched; in fact `version.parse("abc")` raises `InvalidVersion`, the
exception propagates out of `install_package`, and the executor is never
called. -/
theorem C4_counterexample :
    satisfiedCheck (some "abc") ">=0.9.0" = .error "InvalidVersion" ∧
    (Except.error "InvalidVersion" : Except String Bool) ≠ .ok false ∧
    (install_package (fun _ => some "abc") (fun _ => .success) "whois" ">=0.9.0").result =
      .error "InvalidVersion" ∧
    (install_package (fun _ => some "abc") (fun _ => .success) "whois" ">=0.9.0").calls = 0 :=
  ⟨rfl, by decide, rfl, rfl⟩

/-- Claim C4 (corrected): the satisfaction check is not total.  An absent
(`None`) or empty installed version yields "not satisfied" without parsing
anything; but a present, nonempty installed version that does not parse —
or a constraint whose stripped version string does not parse — raises
`InvalidVersion` instead of evaluating to "not satisfied". -/
theorem C4_parse_failures_raise :
    (∀ spec, satisfiedCheck none spec = .ok false) ∧
    (∀ spec, satisfiedCheck (some "") spec = .ok false) ∧
    (∀ cv spec, cv ≠ "" → parseVersion cv = none →
      satisfiedCheck (some cv) spec = .error "InvalidVersion") ∧
    (∀ cv spec l, cv ≠ "" → parseVersion cv = some l →
      parseVersion (lstripGtEq spec) = none →
      satisfiedCheck (some cv) spec = .error "InvalidVersion") := by
  refine ⟨fun _ => rfl, fun _ => rfl, ?_, ?_⟩
  · intro cv spec hne hp
    simp [satisfiedCheck, hne, hp]
  · intro cv spec l hne hp hq
    simp [satisfiedCheck, hne, hp, hq]

/-- Concrete instances of C4's corrected statement: a non-numeric installed
version raises, and an empty (hence unparsable) constraint raises when a
parsable version is installed. -/
theorem C4_witness :
    satisfiedCheck (some "abc") ">=2.0" = .error "InvalidVersion" ∧
    satisfiedCheck (some "1.0") "" = .error "InvalidVersion" :=
  ⟨C4_parse_failures_raise.2.2.1 "abc" ">=2.0" (by decide) rfl,
   C4_parse_failures_raise.2.2.2 "1.0" "" [1, 0] (by decide) rfl rfl⟩

/-! ## Claim C5 -/

/-- Claim C5 counterexample: an unconstrained request (`spec = ""`) with an
installed version is not "always satisfied" — `version.parse("".lstrip('>='))`
raises `InvalidVersion`, so the second-run outcome for an unconstrained
package is an exception, not `Already installed`. -/
theorem C5_counterexample :
    (install_package (fun _ => some "1.0.0") (fun _ => .success) "flask" "").result =
      .error "InvalidVersion" ∧
    (install_package (fun _ => some "1.0.0") (fun _ => .success) "flask" "").result ≠
      .ok (some ("flask", true, "Already installed")) :=
  ⟨rfl, by decide⟩

/-- Claim C5 (corrected): on a second run whose oracle reports version `v`
installed, a package whose constraint is `">=" ++ v` (the shape the script
writes to its config) yields `Already installed` with zero executor calls for
every parsable `v`; but an unconstrained package (empty constraint) raises
`InvalidVersion` instead, making zero executor calls. -/
theorem C5_second_run_constrained_satisfied_unconstrained_raises
    (exec : Nat → ExecResult) (pkg v : String) (l : List Nat)
    (hv : parseVersion v = some l) :
    install_package (fun _ => some v) exec pkg (">=" ++ v) =
      ⟨.ok (some (pkg, true, "Already installed")), 0, []⟩ ∧
    (install_package (fun _ => some v) exec pkg "").result = .error "InvalidVersion" ∧
    (install_package (fun _ => some v) exec pkg "").calls = 0 := by
  have hne : v ≠ "" := parse_some_ne_empty hv
  have h1 : satisfiedCheck (some v) (">=" ++ v) = .ok true := by
    simp [satisfiedCheck, hne, lstripGtEq_ge_self hv, hv, cmpRelease_self, ordIsGE]
  have h2 : satisfiedCheck (some v) "" = .error "InvalidVersion" := by
    simp [satisfiedCheck, hne, hv, show lstripGtEq "" = "" from rfl, parseVersion_empty]
  exact ⟨by simp [install_package, h1], by simp [install_package, h2],
    by simp [install_package, h2]⟩

/-- Concrete instance of C5's corrected statement at `v = "2.28.0"`. -/
theorem C5_witness :
    parseVersion "2.28.0" = some [2, 28, 0] ∧
    install_package (fun _ => some "2.28.0") (fun _ => ExecResult.success) "requests"
        (">=" ++ "2.28.0") = ⟨.ok (some ("requests", true, "Already installed")), 0, []⟩ ∧
    (install_package (fun _ => some "2.28.0") (fun _ => ExecResult.success) "requests" "").result =
      .error "InvalidVersion" :=
  ⟨rfl,
   (C5_second_run_constrained_satisfied_unconstrained_raises _ "requests" "2.28.0" [2, 28, 0] rfl).1,
   (C5_second_run_constrained_satisfied_unconstrained_raises
      (fun _ => ExecResult.success) "requests" "2.28.0" [2, 28, 0] rfl).2.1⟩

/-! ## Claim C1 -/

/-- Claim C1 counterexample: with an executor that always exits nonzero with
a clearly non-transient stderr (`No matching distribution found`), the claim
predicts exactly one executor call; the code classifies nothing and retries,
making `NETWORK_RETRIES + 1 = 3` calls. -/
theorem C1_counterexample :
    (install_package (fun _ => none)
        (fun _ => .calledProcessError "ERROR: No matching distribution found for nosuchpkg")
        "nosuchpkg" ">=1.0").calls = 3 ∧
    (3 : Nat) ≠ 1 :=
  ⟨rfl, by decide⟩

/-- Claim C1 (corrected): `install_package` never inspects stderr to classify
a nonzero exit as terminal — every `CalledProcessError` is retried.  With an
executor whose every call exits nonzero, the constraint being unsatisfied,
exactly `NETWORK_RETRIES + 1 = 3` executor calls are made, sleeping 5 and
then 10 seconds between them, and the returned detail is the last stderr
line of the final attempt. -/
theorem C1_every_nonzero_exit_retried
    (oracle : String → Option String) (exec : Nat → ExecResult) (pkg spec : String)
    (hcheck : satisfiedCheck (oracle pkg) spec = .ok false)
    (hfail : ∀ n, ∃ s, exec n = .calledProcessError s) :
    ∃ s2, exec 2 = .calledProcessError s2 ∧
      install_package oracle exec pkg spec =
        ⟨.ok (some (pkg, false, lastErrLine s2)), 3, [5, 10]⟩ := by
  obtain ⟨s0, h0⟩ := hfail 0
  obtain ⟨s1, h1⟩ := hfail 1
  obtain ⟨s2, h2⟩ := hfail 2
  refine ⟨s2, h2, ?_⟩
  simp [install_package, hcheck, installLoop, h0, h1, h2, NETWORK_RETRIES]

/-- Concrete instance of C1's corrected statement: three calls, not one. -/
theorem C1_witness :
    install_package (fun _ => none) (fun _ => ExecResult.calledProcessError "ERROR: boom")
        "requests" ">=2.28.0" =
      ⟨.ok (some ("requests", false, "ERROR: boom")), 3, [5, 10]⟩ := by
  obtain ⟨s2, h2, h⟩ := C1_every_nonzero_exit_retried (fun _ => none)
    (fun _ => ExecResult.calledProcessError "ERROR: boom") "requests" ">=2.28.0" rfl
    (fun _ => ⟨"ERROR: boom", rfl⟩)
  have hs : ExecResult.calledProcessError "ERROR: boom" = .calledProcessError s2 := h2
  injection hs with hs2
  rw [h, ← hs2]
  decide

/-! ## Claim C3 -/

/-- Claim C3 counterexample: with a first call that times out and a second
that exits nonzero — both retryable by the claim's own reading — the sleeps
are `10 * 1 = 10` and then `5 * 2 = 10`: not strictly increasing, and not of
the form `baseDelay * k` for any single base delay. -/
theorem C3_counterexample :
    (install_package (fun _ => none)
        (fun n => if n = 0 then ExecResult.timeoutExpired
                  else .calledProcessError "ERROR: network unreachable")
        "scapy" ">=2.5.0").sleeps = [10, 10] ∧
    (install_package (fun _ => none)
        (fun n => if n = 0 then ExecResult.timeoutExpired
                  else .calledProcessError "ERROR: network unreachable")
        "scapy" ">=2.5.0").calls = 3 ∧
    ¬ List.Chain' (· < ·) [10, 10] :=
  ⟨rfl, rfl, by simp [List.chain'_cons]⟩

/-- Claim C3 (corrected): when every executor call fails (every failure is
retried — the code classifies nothing as terminal), the package fails after
exactly `NETWORK_RETRIES + 1 = 3` executor calls, with exactly two sleeps and
none before the first attempt.  The sleep before retry number `k` is
`5 * k` after a nonzero exit and `10 * k` after a timeout (`retryDelay`), so
delays are non-decreasing in general, and strictly increasing whenever the
first two failures are of the same kind. -/
theorem C3_fail_all_attempts_linear_backoff
    (oracle : String → Option String) (exec : Nat → ExecResult) (pkg spec : String)
    (hcheck : satisfiedCheck (oracle pkg) spec = .ok false)
    (hfail : ∀ n, exec n ≠ .success) :
    (install_package oracle exec pkg spec).calls = NETWORK_RETRIES + 1 ∧
    (∃ m, (install_package oracle exec pkg spec).result = .ok (some (pkg, false, m))) ∧
    (install_package oracle exec pkg spec).sleeps =
      [retryDelay (exec 0) 1, retryDelay (exec 1) 2] ∧
    List.Chain' (· ≤ ·) (install_package oracle exec pkg spec).sleeps ∧
    ((∃ s, exec 0 = .calledProcessError s) → (∃ s, exec 1 = .calledProcessError s) →
      List.Chain' (· < ·) (install_package oracle exec pkg spec).sleeps) ∧
    (exec 0 = .timeoutExpired → exec 1 = .timeoutExpired →
      List.Chain' (· < ·) (install_package oracle exec pkg spec).sleeps) := by
  have hcases : ∀ r : ExecResult, r ≠ .success →
      (∃ s, r = .calledProcessError s) ∨ r = .timeoutExpired := by
    intro r h
    cases r with
    | success => exact absurd rfl h
    | calledProcessError s => exact .inl ⟨s, rfl⟩
    | timeoutExpired => exact .inr rfl
  rcases hcases _ (hfail 0) with ⟨s0, h0⟩ | h0 <;>
    rcases hcases _ (hfail 1) with ⟨s1, h1⟩ | h1 <;>
      rcases hcases _ (hfail 2) with ⟨s2, h2⟩ | h2 <;>
        simp [install_package, hcheck, installLoop, h0, h1, h2, NETWORK_RETRIES,
          retryDelay, List.chain'_cons]

/-- Concrete instance of C3's corrected statement: an executor that always
times out gives three calls and sleeps `[10, 20]`. -/
theorem C3_witness :
    satisfiedCheck ((fun _ => (none : Option String)) "scapy") ">=2.5.0" = .ok false ∧
    (install_package (fun _ => none) (fun _ => ExecResult.timeoutExpired)
        "scapy" ">=2.5.0").calls = NETWORK_RETRIES + 1 ∧
    (install_package (fun _ => none) (fun _ => ExecResult.timeoutExpired)
        "scapy" ">=2.5.0").sleeps =
      [retryDelay ((fun _ => ExecResult.timeoutExpired) 0) 1,
       retryDelay ((fun _ => ExecResult.timeoutExpired) 1) 2] ∧
    List.Chain' (· < ·) (install_package (fun _ => none)
        (fun _ => ExecResult.timeoutExpired) "scapy" ">=2.5.0").sleeps := by
  have h := C3_fail_all_attempts_linear_backoff (fun _ => none)
    (fun _ => ExecResult.timeoutExpired) "scapy" ">=2.5.0" rfl
    (fun _ => by simp)
  exact ⟨rfl, h.1, h.2.2.1, h.2.2.2.2.2 rfl rfl⟩

/-! ## Claims C2 and C7 -/

/-- With `attempt + fuel = NETWORK_RETRIES + 1` iterations remaining and at
least one left, the retry loop always returns a triple naming its own
package (the loop's three `return` statements all do). -/
theorem installLoop_some (exec : Nat → ExecResult) (pkg : String) :
    ∀ fuel attempt, attempt + fuel = NETWORK_RETRIES + 1 → 0 < fuel →
      ∃ b m, (installLoop exec pkg attempt fuel).1 = some (pkg, b, m) := by
  intro fuel
  induction fuel with
  | zero => intro attempt _ hpos; exact absurd hpos (by simp)
  | succ f ih =>
    intro attempt hsum _
    have hNR : NETWORK_RETRIES = 2 := rfl
    cases hx : exec attempt with
    | success => exact ⟨true, "Success", by simp [installLoop, hx]⟩
    | calledProcessError s =>
      by_cases ha : attempt = NETWORK_RETRIES
      · exact ⟨false, lastErrLine s, by subst ha; simp [installLoop, hx]⟩
      · obtain ⟨b, m, hm⟩ := ih (attempt + 1) (by omega) (by rw [hNR] at hsum ha; omega)
        exact ⟨b, m, by simp [installLoop, hx, ha]; exact hm⟩
    | timeoutExpired =>
      by_cases ha : attempt = NETWORK_RETRIES
      · exact ⟨false, "Timeout", by subst ha; simp [installLoop, hx]⟩
      · obtain ⟨b, m, hm⟩ := ih (attempt + 1) (by omega) (by rw [hNR] at hsum ha; omega)
        exact ⟨b, m, by simp [installLoop, hx, ha]; exact hm⟩

/-- As long as the satisfaction check does not raise, `install_package`
returns a triple naming its own package. -/
theorem install_result_named (oracle : String → Option String) (exec : Nat → ExecResult)
    (pkg spec : String) (b : Bool) (h : satisfiedCheck (oracle pkg) spec = .ok b) :
    ∃ b2 m, (install_package oracle exec pkg spec).result = .ok (some (pkg, b2, m)) := by
  cases b with
  | true => exact ⟨true, "Already installed", by simp [install_package, h]⟩
  | false =>
    obtain ⟨b2, m, hm⟩ := installLoop_some exec pkg (NETWORK_RETRIES + 1) 0 rfl (by simp)
    exact ⟨b2, m, by simp [install_package, h]; exact hm⟩

/-- The collection loop on a future that returned a proper triple. -/
theorem collectFailed_ok_cons (p : String) (b : Bool) (m : String)
    (rs : List (Except String (Option (String × Bool × String)))) :
    collectFailed (.ok (some (p, b, m)) :: rs) =
      match collectFailed rs with
      | .error e => .error e
      | .ok failed => .ok (if b then failed else p :: failed) := rfl

/-- As long as no per-package satisfaction check raises, the collection loop
returns, and the `failed` list it returns is the submitted packages that
failed, in request order. -/
theorem parallel_install_ok_request_order
    (oracle : String → Option String) (exec : String → Nat → ExecResult)
    (packages : List (String × String))
    (h : ∀ ps ∈ packages, ∃ b, satisfiedCheck (oracle ps.1) ps.2 = .ok b) :
    parallel_install oracle exec packages = .ok (failedNames oracle exec packages) := by
  induction packages with
  | nil => rfl
  | cons ps rest ih =>
    have hrest := ih (fun q hq => h q (List.mem_cons_of_mem _ hq))
    obtain ⟨b, hb⟩ := h ps (List.mem_cons_self _ _)
    obtain ⟨b2, m, hm⟩ := install_result_named oracle (exec ps.1) ps.1 ps.2 b hb
    have hcons : futureResults oracle exec (ps :: rest) =
        (install_package oracle (exec ps.1) ps.1 ps.2).result ::
          futureResults oracle exec rest := rfl
    have hout : outcomeFailed oracle exec ps = !b2 := by
      cases b2 <;> simp [outcomeFailed, hm]
    show collectFailed (futureResults oracle exec (ps :: rest)) = _
    rw [hcons, hm, collectFailed_ok_cons,
      show collectFailed (futureResults oracle exec rest) =
        parallel_install oracle exec rest from rfl, hrest]
    cases b2 <;> simp [failedNames, List.filter_cons, hout]

/-- Claim C2 counterexample: a batch containing one package with an empty
constraint and an installed version raises `InvalidVersion` out of
`parallel_install` instead of returning a batch result. -/
theorem C2_counterexample :
    parallel_install (fun _ => some "2.28.0") (fun _ _ => .success) [("requests", "")] =
      .error "InvalidVersion" := rfl

/-- Claim C2 (corrected): provided no per-package satisfaction check raises
(for every submitted package, either no version is reported installed or
both version strings parse), the batch returns a result; the returned
`failed` list is the failing packages in request order, and every submitted
package yields exactly one future value — one per package, in order, naming
that package (no duplicates, no drops).  When some check raises, the batch
raises. -/
theorem C2_one_outcome_each_when_no_check_raises
    (oracle : String → Option String) (exec : String → Nat → ExecResult)
    (packages : List (String × String))
    (h : ∀ ps ∈ packages, ∃ b, satisfiedCheck (oracle ps.1) ps.2 = .ok b) :
    parallel_install oracle exec packages = .ok (failedNames oracle exec packages) ∧
    List.Forall₂ (fun (ps : String × String) r => ∃ b m, r = Except.ok (some (ps.1, b, m)))
      packages (futureResults oracle exec packages) := by
  refine ⟨parallel_install_ok_request_order oracle exec packages h, ?_⟩
  induction packages with
  | nil => exact .nil
  | cons ps rest ih =>
    obtain ⟨b, hb⟩ := h ps (List.mem_cons_self _ _)
    obtain ⟨b2, m, hm⟩ := install_result_named oracle (exec ps.1) ps.1 ps.2 b hb
    exact .cons ⟨b2, m, hm⟩ (ih (fun q hq => h q (List.mem_cons_of_mem _ hq)))

/-- Concrete instance of C2's corrected statement: a two-package batch in
which one package is already satisfied and the other fails all attempts. -/
theorem C2_witness :
    parallel_install (fun _ => some "2.28.0")
        (fun _ _ => ExecResult.calledProcessError "ERROR: boom")
        [("requests", ">=2.28.0"), ("scapy", ">=9.9.9")] =
      .ok (failedNames (fun _ => some "2.28.0")
        (fun _ _ => ExecResult.calledProcessError "ERROR: boom")
        [("requests", ">=2.28.0"), ("scapy", ">=9.9.9")]) ∧
    List.Forall₂ (fun (ps : String × String) r => ∃ b m, r = Except.ok (some (ps.1, b, m)))
      [("requests", ">=2.28.0"), ("scapy", ">=9.9.9")]
      (futureResults (fun _ => some "2.28.0")
        (fun _ _ => ExecResult.calledProcessError "ERROR: boom")
        [("requests", ">=2.28.0"), ("scapy", ">=9.9.9")]) := by
  refine C2_one_outcome_each_when_no_check_raises _ _ _ ?_
  intro ps hps
  simp only [List.mem_cons, List.not_mem_nil, or_false] at hps
  rcases hps with h | h
  · exact ⟨true, by rw [show ps = ("requests", ">=2.28.0") from h]; rfl⟩
  · exact ⟨false, by rw [show ps = ("scapy", ">=9.9.9") from h]; rfl⟩

/-- Claim C7 counterexample: a two-package batch where both fail, with a
completion schedule under which the second-submitted job finishes first.
`parallel_install` returns the failures in request order `["scapy", "whois"]`,
not in the completion order `["whois", "scapy"]`. -/
theorem C7_counterexample :
    parallel_install_sched [1, 0] (fun _ => none)
        (fun _ _ => .calledProcessError "ERROR: connection refused")
        [("scapy", ">=2.5.0"), ("whois", ">=0.9.0")] = .ok ["scapy", "whois"] ∧
    failedInCompletionOrder [1, 0] (fun _ => none)
        (fun _ _ => .calledProcessError "ERROR: connection refused")
        [("scapy", ">=2.5.0"), ("whois", ">=0.9.0")] = ["whois", "scapy"] ∧
    (["scapy", "whois"] : List String) ≠ ["whois", "scapy"] :=
  ⟨rfl, rfl, by decide⟩

/-- Claim C7 (corrected): the collection loop iterates the futures in
submission order (`for future in futures`, not `as_completed`), so for every
completion schedule the batch returns the same `failed` list — the failing
packages in request order, not completion order. -/
theorem C7_failed_is_request_order_for_every_schedule
    (completion : List Nat) (oracle : String → Option String)
    (exec : String → Nat → ExecResult) (packages : List (String × String))
    (h : ∀ ps ∈ packages, ∃ b, satisfiedCheck (oracle ps.1) ps.2 = .ok b) :
    parallel_install_sched completion oracle exec packages =
      .ok (failedNames oracle exec packages) :=
  parallel_install_ok_request_order oracle exec packages h

/-- Concrete instance of C7's corrected statement, on the counterexample's
batch and schedule. -/
theorem C7_witness :
    parallel_install_sched [1, 0] (fun _ => none)
        (fun _ _ => ExecResult.calledProcessError "ERROR: connection refused")
        [("scapy", ">=2.5.0"), ("whois", ">=0.9.0")] =
      .ok (failedNames (fun _ => none)
        (fun _ _ => ExecResult.calledProcessError "ERROR: connection refused")
        [("scapy", ">=2.5.0"), ("whois", ">=0.9.0")]) := by
  refine C7_failed_is_request_order_for_every_schedule [1, 0] _ _ _ ?_
  intro ps hps
  simp only [List.mem_cons, List.not_mem_nil, or_false] at hps
  rcases hps with h | h
  · exact ⟨false, by rw [show ps = ("scapy", ">=2.5.0") from h]; rfl⟩
  · exact ⟨false, by rw [show ps = ("whois", ">=0.9.0") from h]; rfl⟩

/-! ## Claim C8 -/

/-- `ordLexList` peels one comparison at a time. -/
theorem ordLexList_cons (o : Ordering) (l : List Ordering) :
    ordLexList (o :: l) = o.then (ordLexList l) := rfl

/-- Comparing against no remaining segments: equal iff all remaining are zero. -/
theorem cmpRelease_nil_right (xs : List Nat) :
    cmpRelease xs [] = if allZero xs then .eq else .gt := by
  cases xs <;> simp [cmpRelease, allZero]

/-- The code's release comparison (missing segments count as zero) agrees
with explicitly zero-padding both sides to equal length and comparing
segmentwise, left to right. -/
theorem ordLex_pad_eq_cmpRelease (x : List Nat) : ∀ y : List Nat,
    ordLexList (List.zipWith natCmp
      (x ++ List.replicate (max x.length y.length - x.length) 0)
      (y ++ List.replicate (max x.length y.length - y.length) 0)) = cmpRelease x y := by
  induction x with
  | nil =>
    intro y
    induction y with
    | nil => rfl
    | cons b bs ihy =>
      simp only [List.nil_append, List.length_nil, List.length_cons, Nat.zero_max,
        Nat.sub_zero, Nat.sub_self, List.replicate, List.append_nil,
        List.zipWith_cons_cons, ordLexList_cons] at ihy ⊢
      rw [ihy]
      cases b with
      | zero => simp [natCmp, cmpRelease, allZero, Ordering.then]
      | succ n => simp [natCmp, cmpRelease, allZero, Ordering.then]
  | cons a as ihx =>
    intro y
    cases y with
    | nil =>
      have h := ihx []
      simp only [List.length_nil, List.append_nil, Nat.max_zero, Nat.sub_self,
        List.replicate, List.nil_append, Nat.sub_zero, List.length_cons,
        List.zipWith_cons_cons, ordLexList_cons] at h ⊢
      rw [h, cmpRelease_nil_right]
      cases a with
      | zero => simp [natCmp, cmpRelease, allZero, Ordering.then]
      | succ n => simp [natCmp, cmpRelease, allZero, Ordering.then]
    | cons b bs =>
      have h := ihx bs
      simp only [List.length_cons, Nat.succ_max_succ, Nat.succ_sub_succ,
        List.cons_append, List.zipWith_cons_cons, ordLexList_cons] at h ⊢
      rw [h, cmpRelease]

/-- Unpack a successful parse: all segments numeric, result is their values. -/
theorem parse_some_elim {a : String} {x : List Nat} (h : parseVersion a = some x) :
    (∀ s ∈ splitDots a.data, isNumericSeg s = true) ∧
      x = (splitDots a.data).map digitsToNat := by
  unfold parseVersion at h
  split at h
  case isTrue hall =>
    injection h with h
    exact ⟨fun s hs => List.all_eq_true.1 hall s hs, h.symm⟩
  case isFalse => cases h

/-- On all-numeric segments, the spec's segment comparison is numeric
comparison of the segment values. -/
theorem zip_segCmp_numeric : ∀ (u v : List (List Char)),
    (∀ s ∈ u, isNumericSeg s = true) → (∀ s ∈ v, isNumericSeg s = true) →
    List.zipWith segCmp u v = List.zipWith natCmp (u.map digitsToNat) (v.map digitsToNat) := by
  intro u
  induction u with
  | nil => intro v _ _; simp
  | cons a as ih =>
    intro v hu hv
    cases v with
    | nil => simp
    | cons b bs =>
      have ha := hu a (List.mem_cons_self _ _)
      have hb := hv b (List.mem_cons_self _ _)
      simp only [List.zipWith_cons_cons, List.map_cons]
      rw [ih bs (fun s hs => hu s (List.mem_cons_of_mem _ hs))
        (fun s hs => hv s (List.mem_cons_of_mem _ hs))]
      congr 1
      simp [segCmp, ha, hb]

/-- Padding with `"0"` segments is padding the values with zeros. -/
theorem map_digits_padSegs (n : Nat) (l : List (List Char)) :
    (padSegs n l).map digitsToNat = l.map digitsToNat ++ List.replicate (n - l.length) 0 := by
  simp [padSegs, show digitsToNat ['0'] = 0 from rfl]

/-- Padding preserves all-numeric segment lists. -/
theorem padSegs_all_numeric (n : Nat) (l : List (List Char))
    (h : ∀ s ∈ l, isNumericSeg s = true) :
    ∀ s ∈ padSegs n l, isNumericSeg s = true := by
  intro s hs
  rcases List.mem_append.1 hs with h1 | h2
  · exact h s h1
  · rw [List.eq_of_mem_replicate h2]; rfl

/-- On two strings that parse, the spec's padded segmentwise comparison
coincides with the code's release comparison. -/
theorem specVersionCmp_eq_cmpRelease {a b : String} {x y : List Nat}
    (ha : parseVersion a = some x) (hb : parseVersion b = some y) :
    specVersionCmp a b = cmpRelease x y := by
  obtain ⟨han, hax⟩ := parse_some_elim ha
  obtain ⟨hbn, hbx⟩ := parse_some_elim hb
  have hlx : x.length = (splitDots a.data).length := by rw [hax]; simp
  have hly : y.length = (splitDots b.data).length := by rw [hbx]; simp
  unfold specVersionCmp
  rw [zip_segCmp_numeric _ _
    (padSegs_all_numeric _ _ han) (padSegs_all_numeric _ _ hbn)]
  rw [map_digits_padSegs, map_digits_padSegs]
  rw [← hax, ← hbx, ← hlx, ← hly]
  exact ordLex_pad_eq_cmpRelease x y

/-- Claim C8 counterexample: on a version with a non-numeric segment the
claimed lexicographic fallback would compare `"x" > "0"` and answer
satisfied, but the code raises `InvalidVersion` instead of producing any
comparison verdict. -/
theorem C8_counterexample :
    satisfiedCheck (some "1.2.x") ">=1.2.0" = .error "InvalidVersion" ∧
    specVersionCmp "1.2.x" "1.2.0" = .gt ∧
    (Except.error "InvalidVersion" : Except String Bool) ≠
      .ok (ordIsGE (specVersionCmp "1.2.x" "1.2.0")) :=
  ⟨rfl, rfl, by decide⟩

/-- Claim C8 (corrected): for version strings all of whose dot-separated
segments are numeric, the code's comparison agrees exactly with the spec's
algorithm — dotted segments left to right, shorter sequence padded with
zeros; but a non-numeric segment makes the parse raise `InvalidVersion`
rather than fall back to lexicographic comparison. -/
theorem C8_numeric_dotted_agreement (cv c : String) (x y : List Nat)
    (hcv : parseVersion cv = some x) (hc : parseVersion (lstripGtEq c) = some y) :
    satisfiedCheck (some cv) c = .ok (ordIsGE (specVersionCmp cv (lstripGtEq c))) := by
  have hne : cv ≠ "" := parse_some_ne_empty hcv
  rw [specVersionCmp_eq_cmpRelease hcv hc]
  simp [satisfiedCheck, hne, hcv, hc]

/-- Concrete instance of C8's corrected statement: `2.28.1` against
`">=2.28.0"`. -/
theorem C8_witness :
    parseVersion "2.28.1" = some [2, 28, 1] ∧
    parseVersion (lstripGtEq ">=2.28.0") = some [2, 28, 0] ∧
    satisfiedCheck (some "2.28.1") ">=2.28.0" =
      .ok (ordIsGE (specVersionCmp "2.28.1" (lstripGtEq ">=2.28.0"))) :=
  ⟨rfl, rfl, C8_numeric_dotted_agreement "2.28.1" ">=2.28.0" [2, 28, 1] [2, 28, 0] rfl rfl⟩
